import Mathlib

/-!
Verification of the DEM XML parser (`dem_converter/src/xml_parser.rs`) and the
GeoTiff writer CRS classification (`dem_converter/src/geotiff_writer.rs`).

The parser is embedded at the XML-event level: the `quick_xml` reader hands the
Rust code a stream of Start / End / Text / Empty events (with `trim_text(true)`),
and `parse_dem_xml` is a fold over that stream.  We model the event stream as a
`List XmlEvent` and translate the Rust event loop into a structurally recursive
scan.  The nested `get_text_from_event` reader loop (which consumes events until
the first End/Empty event, concatenating Text events and failing on EOF) is
represented by a capture mode carried in the scan state; the two loops consume
the same events in the same order and produce the same results.

Numeric text is parsed by the Rust code with `str::parse` into `f64`/`f32`/
`usize`/`u16`.  Elevation and coordinate values are modelled as exact rationals
read from decimal numerals (sign, digits, optional fractional part); the
exponent/inf/nan forms of the float grammar are not exercised by any claim.
Machine integers are modelled as `Nat` with their bounds made explicit:
`str::parse::<usize>` rejects values of 2^64 or more and `str::parse::<u16>`
values of 2^16 or more (overflow is a parse error in Rust), and the one
arithmetic operation on a `usize` — the `width * height` product in the final
count check — is taken modulo 2^64, the wrapping behaviour of a release
build (a debug build panics on the overflowing multiplication instead of
returning a value; no claim distinguishes the two failure modes at the same
input).  Error-message strings are reproduced up to the quotation marks the
Rust `format!` calls place around interpolated values.
-/

set_option maxHeartbeats 1000000

/-! ## String model

The Rust code uses `to_lowercase`, `to_uppercase`, `split_whitespace`,
`replace(",", " ")`, `trim`, `starts_with` and byte slicing on `&str`.  These
are modelled as explicit functions on the character list of a `String` (all
text relevant to the claims is ASCII). -/

/-- ASCII whitespace test, modelling `char::is_whitespace` on the characters
the format uses. -/
def isWsChar (c : Char) : Bool :=
  c = ' ' ∨ c = '\t' ∨ c = '\n' ∨ c = '\r'

/-- ASCII lower-casing of one character, modelling `char::to_lowercase`. -/
def lowerChar (c : Char) : Char :=
  if 'A' ≤ c ∧ c ≤ 'Z' then Char.ofNat (c.toNat + 32) else c

/-- ASCII upper-casing of one character, modelling `char::to_uppercase`. -/
def upperChar (c : Char) : Char :=
  if 'a' ≤ c ∧ c ≤ 'z' then Char.ofNat (c.toNat - 32) else c

/-- Model of `str::to_lowercase`. -/
def strToLower (s : String) : String := ⟨s.data.map lowerChar⟩

/-- Model of `str::to_uppercase`. -/
def strToUpper (s : String) : String := ⟨s.data.map upperChar⟩

/-- Model of `str::replace(",", " ")` (a one-character pattern, hence a map). -/
def replaceCommas (s : String) : String :=
  ⟨s.data.map (fun c => if c = ',' then ' ' else c)⟩

/-- Helper for `splitWs`: accumulate the current token (reversed) and emit it
at each whitespace run. -/
def splitWsGo : List Char → List Char → List String
  | [], acc => if acc = [] then [] else [⟨acc.reverse⟩]
  | c :: cs, acc =>
    if isWsChar c then
      if acc = [] then splitWsGo cs [] else ⟨acc.reverse⟩ :: splitWsGo cs []
    else
      splitWsGo cs (c :: acc)

/-- Model of `str::split_whitespace`: split on runs of whitespace, no empty
tokens. -/
def splitWs (s : String) : List String := splitWsGo s.data []

/-- Model of `str::trim`. -/
def strTrim (s : String) : String :=
  ⟨((s.data.dropWhile isWsChar).reverse.dropWhile isWsChar).reverse⟩

/-- Model of `str::starts_with`. -/
def strStartsWith (s p : String) : Bool := p.data.isPrefixOf s.data

/-- Model of `&s[n..]` for an ASCII prefix of length `n`. -/
def strDrop (s : String) (n : Nat) : String := ⟨s.data.drop n⟩

/-- Numeric value of a digit list, most significant first. -/
def natOfDigits (cs : List Char) : Nat :=
  cs.foldl (fun n c => n * 10 + (c.toNat - 48)) 0

/-- All characters are decimal digits. -/
def isDigits (cs : List Char) : Bool := cs.all (·.isDigit)

/-- Unsigned decimal numeral with optional fractional part, as an exact
rational: the core of the model of `str::parse::<f64>` / `::<f32>`.  The value
of `i.f` is `(i * 10^|f| + f) / 10^|f|`, built with `mkRat` so that the
resulting rational is in reduced form. -/
def parseNumCore (cs : List Char) : Option ℚ :=
  match cs.splitOn '.' with
  | [ip] =>
    if ip ≠ [] ∧ isDigits ip then some (mkRat (natOfDigits ip) 1) else none
  | [ip, fp] =>
    if (ip ≠ [] ∨ fp ≠ []) ∧ isDigits ip ∧ isDigits fp then
      some (mkRat (natOfDigits ip * 10 ^ fp.length + natOfDigits fp) (10 ^ fp.length))
    else none
  | _ => none

/-- Model of `str::parse::<f64>` / `::<f32>` on decimal numerals, returning the
exact rational value (sign handling as in the Rust float grammar). -/
def parseNum (s : String) : Option ℚ :=
  match s.data with
  | '-' :: rest => (parseNumCore rest).map (fun q => -q)
  | '+' :: rest => parseNumCore rest
  | cs => parseNumCore cs

/-- The number of values of a 64-bit `usize`. -/
def usizeSize : Nat := 2 ^ 64

/-- Digits of a `usize` numeral: non-empty, all decimal, value below 2^64
(overflow is a parse error in Rust). -/
def parseNatCore (cs : List Char) : Option Nat :=
  if cs ≠ [] ∧ isDigits cs then
    if natOfDigits cs < usizeSize then some (natOfDigits cs) else none
  else none

/-- Model of `str::parse::<usize>`: optional plus sign, then digits, value
below 2^64. -/
def parseNatStr (s : String) : Option Nat :=
  match s.data with
  | '+' :: rest => parseNatCore rest
  | cs => parseNatCore cs

/-- Model of `str::parse::<u16>`: as `usize` but rejecting values ≥ 2^16
(overflow is a parse error in Rust). -/
def parseU16 (s : String) : Option Nat :=
  match parseNatStr s with
  | some n => if n < 65536 then some n else none
  | none => none

/-- `needle` occurs as a contiguous substring of `hay`. -/
def occursIn (needle hay : String) : Prop := ∃ a b, hay = a ++ needle ++ b

deriving instance DecidableEq for Except

/-! ## Data model (`dem_converter/src/lib.rs`) -/

/-- `DemMetadata` from `dem_converter/src/lib.rs` (floating-point fields as
exact rationals). -/
structure DemMetadata where
  width : Nat
  height : Nat
  x_min : ℚ
  y_max : ℚ
  cell_size_x : ℚ
  cell_size_y : ℚ
  no_data_value : Option ℚ
  crs : Option String
  mesh_code : Option String
deriving DecidableEq, Repr

/-- `DemData` from `dem_converter/src/lib.rs`. -/
structure DemData where
  metadata : DemMetadata
  elevation_values : List ℚ
deriving DecidableEq, Repr

/-! ## XML event stream

`quick_xml` hands the parser Start, End, Text and Empty events (other event
kinds are ignored by every branch of the Rust code).  Attributes are key/value
string pairs in document order; text arrives unescaped and trimmed
(`trim_text(true)`). -/

/-- One `quick_xml` event, as seen by `parse_dem_xml`. -/
inductive XmlEvent where
  | startE (name : String) (attrs : List (String × String))
  | endE (name : String)
  | text (s : String)
  | emptyE (name : String) (attrs : List (String × String))
deriving DecidableEq, Repr

/-- Which element a `get_text_from_event` call is collecting text for:
`gml:high`/`jps:high` or `gml:offsetVector`/`jps:offsetVector`. -/
inductive CaptureKind where
  | highCap
  | offsetCap
deriving DecidableEq, Repr

/-- The mutable locals of `parse_dem_xml` (lines 110-128 of `xml_parser.rs`),
plus the capture mode representing an in-progress `get_text_from_event` call. -/
structure ScanState where
  width : Option Nat := none
  height : Option Nat := none
  x_min : Option ℚ := none
  y_min : Option ℚ := none
  y_max : Option ℚ := none
  cell_size_x : Option ℚ := none
  cell_size_y : Option ℚ := none
  no_data_value : Option ℚ := none
  crs : Option String := none
  elevation_values_str : Option String := none
  in_grid_envelope : Bool := false
  in_lower_corner : Bool := false
  in_upper_corner : Bool := false
  in_tuple_list : Bool := false
  in_jps_value_list : Bool := false
  in_nil_values : Bool := false
  capturing : Option CaptureKind := none
  captureAcc : String := ""
deriving DecidableEq, Repr

/-! ## Error messages (quotation marks around interpolated values elided) -/

def eofInTextMsg : String :=
  "Unexpected EOF while reading text content within an element."

def widthMissingMsg : String :=
  "XML Parse Error: DEM width (e.g., from <gml:high> or <jps:high> in GridEnvelope) is missing or invalid."

def heightMissingMsg : String :=
  "XML Parse Error: DEM height (e.g., from <gml:high> or <jps:high> in GridEnvelope) is missing or invalid."

def xMinMissingMsg : String :=
  "XML Parse Error: DEM x_min (e.g., from <gml:lowerCorner>) is missing or invalid."

def yMaxMissingMsg : String :=
  "XML Parse Error: DEM y_max (e.g., from <gml:upperCorner>) is missing or invalid."

def cellSizeXMissingMsg : String :=
  "XML Parse Error: DEM cell_size_x (e.g., from <gml:offsetVector>) is missing or invalid."

def cellSizeYMissingMsg : String :=
  "XML Parse Error: DEM cell_size_y (e.g., from <gml:offsetVector>) is missing or invalid."

def elevMissingMsg : String :=
  "XML Parse Error: Elevation data string (e.g., from <gml:tupleList> or <jps:valueList>) is missing."

/-- Error for an unparsable elevation token (`Failed to parse elevation value
'{}': {}` with the token interpolated). -/
def elevValueMsg (tok : String) : String :=
  "XML Parse Error: Failed to parse elevation value " ++ tok ++ ": invalid float literal"

/-- The data-integrity error, naming the expected count (the `usize` product
`width * height`, wrapped modulo 2^64), the width, the height and the actual
count. -/
def integrityMsg (w h n : Nat) : String :=
  "Data Integrity Error: Mismatch between expected number of elevation values (" ++
    toString (w * h % usizeSize) ++ ", from width " ++ toString w ++ " x height " ++
    toString h ++ ") and parsed values (" ++ toString n ++ ")."

/-! ## The event scan (lines 131-290 of `xml_parser.rs`) -/

/-- The `srsName` attribute loop at the top of the `Event::Start` arm
(lines 138-145): every attribute whose key is exactly `srsName` overwrites
`crs` with its value. -/
def updateCrs (crs : Option String) (attrs : List (String × String)) : Option String :=
  attrs.foldl (fun c kv => if kv.1 = "srsName" then some kv.2 else c) crs

/-- Processing of the text captured for `gml:high`/`jps:high`
(lines 155-169): two whitespace-separated tokens are parsed as width and
height (a failed parse stores `none`); any other token count changes
nothing. -/
def finishHigh (st : ScanState) (text : String) : ScanState :=
  let parts := splitWs text
  if parts.length = 2 then
    { st with width := parseNatStr (parts.getD 0 ""),
              height := parseNatStr (parts.getD 1 "") }
  else st

/-- Processing of the text captured for `gml:offsetVector`/`jps:offsetVector`
(lines 181-195): with at least two tokens, `cell_size_x` is parsed from index 0
as-is and `cell_size_y` from index 1 with `abs` applied after parsing. -/
def finishOffset (st : ScanState) (text : String) : ScanState :=
  let parts := splitWs text
  if parts.length ≥ 2 then
    { st with cell_size_x := parseNum (parts.getD 0 ""),
              cell_size_y :=
                (parseNum (parts.getD 1 "")).map
                  (fun v => if v < 0 then -v else v) }
  else st

/-- Completing a `get_text_from_event` call once its End/Empty event arrives. -/
def finishCapture (k : CaptureKind) (st : ScanState) (text : String) : ScanState :=
  match k with
  | .highCap => { finishHigh st text with capturing := none, captureAcc := "" }
  | .offsetCap => { finishOffset st text with capturing := none, captureAcc := "" }

/-- The `Event::Start` arm (lines 133-212).  The attribute scan runs first;
the tag dispatch follows the Rust `match` arms in order, with a failed guard
falling through to the catch-all. -/
def startStep (st : ScanState) (name : String) (attrs : List (String × String)) :
    ScanState :=
  let tag := strToLower name
  let st := { st with crs := updateCrs st.crs attrs }
  if tag = "gml:gridenvelope" ∨ tag = "jps:gridenvelope" then
    { st with in_grid_envelope := true }
  else if (tag = "gml:low" ∨ tag = "jps:low") ∧ st.in_grid_envelope then
    st
  else if (tag = "gml:high" ∨ tag = "jps:high") ∧ st.in_grid_envelope then
    { st with capturing := some .highCap, captureAcc := "" }
  else if tag = "gml:envelope" ∨ tag = "jps:envelope" then
    st
  else if tag = "gml:lowercorner" ∨ tag = "jps:lowercorner" then
    { st with in_lower_corner := true }
  else if tag = "gml:uppercorner" ∨ tag = "jps:uppercorner" then
    { st with in_upper_corner := true }
  else if tag = "gml:offsetvector" ∨ tag = "jps:offsetvector" then
    { st with capturing := some .offsetCap, captureAcc := "" }
  else if tag = "gml:nilvalues" ∨ tag = "swe:nilvalues" ∨ tag = "jps:nilvalues" then
    { st with in_nil_values := true }
  else if tag = "gml:tuplelist" ∨ tag = "tuplelist" then
    { st with in_tuple_list := true }
  else if tag = "jps:valuelist" then
    { st with in_jps_value_list := true }
  else st

/-- The `Event::End` arm (lines 213-226). -/
def endStep (st : ScanState) (name : String) : ScanState :=
  let tag := strToLower name
  if tag = "gml:gridenvelope" ∨ tag = "jps:gridenvelope" then
    { st with in_grid_envelope := false }
  else if tag = "gml:lowercorner" ∨ tag = "jps:lowercorner" then
    { st with in_lower_corner := false }
  else if tag = "gml:uppercorner" ∨ tag = "jps:uppercorner" then
    { st with in_upper_corner := false }
  else if tag = "gml:tuplelist" ∨ tag = "tuplelist" then
    { st with in_tuple_list := false }
  else if tag = "jps:valuelist" then
    { st with in_jps_value_list := false }
  else if tag = "gml:nilvalues" ∨ tag = "swe:nilvalues" ∨ tag = "jps:nilvalues" then
    { st with in_nil_values := false }
  else st

/-- The `Event::Text` arm (lines 227-277). -/
def textStep (st : ScanState) (s : String) : ScanState :=
  if st.in_lower_corner then
    let parts := splitWs s
    let st :=
      if parts.length = 2 then
        { st with x_min := parseNum (parts.getD 0 ""),
                  y_min := parseNum (parts.getD 1 "") }
      else st
    { st with in_lower_corner := false }
  else if st.in_upper_corner then
    let parts := splitWs s
    let st :=
      if parts.length = 2 then
        { st with y_max := parseNum (parts.getD 1 "") }
      else st
    { st with in_upper_corner := false }
  else if st.in_tuple_list ∨ st.in_jps_value_list then
    { st with elevation_values_str := some s,
              in_tuple_list := false, in_jps_value_list := false }
  else if st.in_nil_values then
    { st with no_data_value := parseNum (strTrim s), in_nil_values := false }
  else st

/-- The main event loop.  In normal mode each event is dispatched to its arm;
in capture mode (an active `get_text_from_event` call) Text events are
accumulated, the first End/Empty event completes the capture, Start events are
skipped, and end-of-stream is the EOF error of `get_text_from_event`. -/
def scanGo (st : ScanState) : List XmlEvent → Except String ScanState
  | [] =>
    match st.capturing with
    | some _ => .error eofInTextMsg
    | none => .ok st
  | ev :: rest =>
    match st.capturing with
    | some k =>
      match ev with
      | .text s => scanGo { st with captureAcc := st.captureAcc ++ s } rest
      | .endE _ => scanGo (finishCapture k st st.captureAcc) rest
      | .emptyE _ _ => scanGo (finishCapture k st st.captureAcc) rest
      | .startE _ _ => scanGo st rest
    | none =>
      match ev with
      | .startE n a => scanGo (startStep st n a) rest
      | .endE n => scanGo (endStep st n) rest
      | .text s => scanGo (textStep st s) rest
      | .emptyE _ _ => scanGo st rest

/-- The full event scan from the initial state. -/
def scanEvents (evs : List XmlEvent) : Except String ScanState := scanGo {} evs

/-! ## Post-processing (lines 294-401 of `xml_parser.rs`) -/

/-- Construction of `DemMetadata` (lines 316-357): each required field is
checked in order with its own error message.  The source struct literal does
not set `mesh_code`; it is `none` here. -/
def buildMetadata (st : ScanState) : Except String DemMetadata :=
  match st.width with
  | none => .error widthMissingMsg
  | some w =>
    match st.height with
    | none => .error heightMissingMsg
    | some h =>
      match st.x_min with
      | none => .error xMinMissingMsg
      | some xm =>
        match st.y_max with
        | none => .error yMaxMissingMsg
        | some ym =>
          match st.cell_size_x with
          | none => .error cellSizeXMissingMsg
          | some cx =>
            match st.cell_size_y with
            | none => .error cellSizeYMissingMsg
            | some cy =>
              .ok { width := w, height := h, x_min := xm, y_max := ym,
                    cell_size_x := cx, cell_size_y := cy,
                    no_data_value := st.no_data_value, crs := st.crs,
                    mesh_code := none }

/-- The elevation token loop (lines 372-381): each token is parsed
independently; the first failure aborts with an error naming that token. -/
def parseElevTokens : List String → Except String (List ℚ)
  | [] => .ok []
  | tok :: rest =>
    match parseNum (strTrim tok) with
    | some v =>
      match parseElevTokens rest with
      | .ok vs => .ok (v :: vs)
      | .error e => .error e
    | none => .error (elevValueMsg tok)

/-- The elevation tuple decoder (lines 368-381): commas become spaces, the
result is split on whitespace runs, and every token must parse. -/
def parseElevations (s : String) : Except String (List ℚ) :=
  parseElevTokens (splitWs (replaceCommas s))

/-- `parse_dem_xml` (lines 103-401 of `xml_parser.rs`): scan the event stream,
build the metadata, decode the elevation tuple text, and check the count
against the `usize` product `width * height` (wrapped modulo 2^64, the
release-build semantics of the source multiplication). -/
def parse_dem_xml (evs : List XmlEvent) : Except String DemData :=
  match scanEvents evs with
  | .error e => .error e
  | .ok st =>
    match buildMetadata st with
    | .error e => .error e
    | .ok md =>
      match st.elevation_values_str with
      | none => .error elevMissingMsg
      | some s =>
        match parseElevations s with
        | .error e => .error e
        | .ok vals =>
          if vals.length ≠ md.width * md.height % usizeSize then
            .error (integrityMsg md.width md.height vals.length)
          else
            .ok { metadata := md, elevation_values := vals }

/-! ## GeoTiff writer CRS classification
(`dem_converter/src/geotiff_writer.rs`, lines 105-161)

The writer's CRS handling is a pure decision on `metadata.crs`; the geo-key it
writes is modelled as a `CrsKey` value. -/

/-- Which coordinate-system key `write_dem_to_geotiff` emits for a given
`crs` value. -/
inductive CrsKey where
  | geographic (code : Nat)
  | projected (code : Nat)
  | citation (s : String)
  | noCrs
deriving DecidableEq, Repr

/-- The CRS branch of `write_dem_to_geotiff`: a string whose upper-casing
starts with `EPSG:` has its tail parsed as `u16`; codes in `[4000, 5000)` get
the geographic key, all other parsed codes the projected key; a failed parse
or a non-EPSG string falls back to the citation key. -/
def classifyCrs : Option String → CrsKey
  | none => .noCrs
  | some crs_str =>
    if strStartsWith (strToUpper crs_str) "EPSG:" then
      match parseU16 (strDrop crs_str 5) with
      | some code =>
        if 4000 ≤ code ∧ code < 5000 then .geographic code else .projected code
      | none => .citation crs_str
    else .citation crs_str

/-! ## Concrete documents and projections used by the claims -/

/-- A `GridEnvelope` block: `low` with the given text, then `high` with the
given text. -/
def envEvents (lowTxt highTxt : String) : List XmlEvent :=
  [.startE "gml:GridEnvelope" [], .startE "gml:low" [], .text lowTxt,
   .endE "gml:low", .startE "gml:high" [], .text highTxt, .endE "gml:high",
   .endE "gml:GridEnvelope"]

/-- `lowerCorner` and `upperCorner` elements with the given texts. -/
def cornerEvents (lo up : String) : List XmlEvent :=
  [.startE "gml:lowerCorner" [], .text lo, .endE "gml:lowerCorner",
   .startE "gml:upperCorner" [], .text up, .endE "gml:upperCorner"]

/-- One `offsetVector` element with the given text. -/
def offsetEvents (t : String) : List XmlEvent :=
  [.startE "gml:offsetVector" [], .text t, .endE "gml:offsetVector"]

/-- A `tupleList` element with the given text. -/
def tupleEvents (t : String) : List XmlEvent :=
  [.startE "gml:tupleList" [], .text t, .endE "gml:tupleList"]

/-- A complete document with `low` fixed to `0 0` and the remaining leaf
texts as parameters. -/
def stdDoc (highTxt lower upper offs tuple : String) : List XmlEvent :=
  envEvents "0 0" highTxt ++ cornerEvents lower upper ++ offsetEvents offs ++
    tupleEvents tuple

/-- Width recorded by the scan, if it succeeds. -/
def scanWidth (evs : List XmlEvent) : Option Nat :=
  match scanEvents evs with
  | .ok st => st.width
  | .error _ => none

/-- Height recorded by the scan, if it succeeds. -/
def scanHeight (evs : List XmlEvent) : Option Nat :=
  match scanEvents evs with
  | .ok st => st.height
  | .error _ => none

/-- `cell_size_x` recorded by the scan, if it succeeds. -/
def scanCellX (evs : List XmlEvent) : Option ℚ :=
  match scanEvents evs with
  | .ok st => st.cell_size_x
  | .error _ => none

/-- `cell_size_y` recorded by the scan, if it succeeds. -/
def scanCellY (evs : List XmlEvent) : Option ℚ :=
  match scanEvents evs with
  | .ok st => st.cell_size_y
  | .error _ => none

/-! ## Documents and expected results for the individual claims -/

/-- A consistent 2 x 2 document with four elevation values. -/
def docC1ok : List XmlEvent :=
  stdDoc "2 2" "135.0 35.0" "135.01 35.01" "0.005 0.005" "1.0 2.0 3.0 4.0"

/-- Expected result of parsing `docC1ok`. -/
def demC1ok : DemData :=
  { metadata := { width := 2, height := 2, x_min := 135, y_max := mkRat 3501 100,
                  cell_size_x := mkRat 5 1000, cell_size_y := mkRat 5 1000,
                  no_data_value := none, crs := none, mesh_code := none },
    elevation_values := [1, 2, 3, 4] }

/-- A document whose tuple list has five values against width 3 x height 2. -/
def docC1mm : List XmlEvent :=
  stdDoc "3 2" "135.0 35.0" "135.01 35.01" "0.005 0.005" "1 2 3 4 5"

/-- The scan state produced by `docC1mm`. -/
def stC1mm : ScanState :=
  { width := some 3, height := some 2, x_min := some 135, y_min := some 35,
    y_max := some (mkRat 3501 100), cell_size_x := some (mkRat 5 1000),
    cell_size_y := some (mkRat 5 1000), elevation_values_str := some "1 2 3 4 5" }

/-- The metadata produced by `docC1mm`. -/
def mdC1mm : DemMetadata :=
  { width := 3, height := 2, x_min := 135, y_max := mkRat 3501 100,
    cell_size_x := mkRat 5 1000, cell_size_y := mkRat 5 1000,
    no_data_value := none, crs := none, mesh_code := none }

/-- A document whose `high` is `4294967296 4294967296` (both fit in a 64-bit
`usize`) and whose tuple text is a single comma, which decodes to zero
elevation values.  The source's `usize` product `2^32 * 2^32` wraps to 0 in a
release build, so the count check passes. -/
def docC1wrap : List XmlEvent :=
  stdDoc "4294967296 4294967296" "135.0 35.0" "135.01 35.01" "0.005 0.005" ","

/-- Expected result of parsing `docC1wrap`: a 2^32 x 2^32 grid with an empty
elevation vector. -/
def demC1wrap : DemData :=
  { metadata := { width := 4294967296, height := 4294967296, x_min := 135,
                  y_max := mkRat 3501 100, cell_size_x := mkRat 5 1000,
                  cell_size_y := mkRat 5 1000, no_data_value := none,
                  crs := none, mesh_code := none },
    elevation_values := [] }

/-- Envelope-only document with the given `high` text. -/
def docHigh (t : String) : List XmlEvent := envEvents "0 0" t

/-- Document with `high = "2 1"` and two elevation values. -/
def docC2 : List XmlEvent :=
  stdDoc "2 1" "135.0 35.0" "135.01 35.01" "0.005 0.005" "1.0 2.0"

/-- Result of parsing `docC2`: width 2 and height 1, exactly the two `high`
integers. -/
def demC2 : DemData :=
  { metadata := { width := 2, height := 1, x_min := 135, y_max := mkRat 3501 100,
                  cell_size_x := mkRat 5 1000, cell_size_y := mkRat 5 1000,
                  no_data_value := none, crs := none, mesh_code := none },
    elevation_values := [1, 2] }

/-- Single-cell document with the given corner texts. -/
def docC3 (t1 t2 : String) : List XmlEvent := stdDoc "1 1" t1 t2 "0.5 0.5" "10.0"

/-- Result of parsing `docC3 t1 t2` when the first lower-corner number is `qa`
and the second upper-corner number is `qd`. -/
def demC3 (qa qd : ℚ) : DemData :=
  { metadata := { width := 1, height := 1, x_min := qa, y_max := qd,
                  cell_size_x := mkRat 5 10, cell_size_y := mkRat 5 10,
                  no_data_value := none, crs := none, mesh_code := none },
    elevation_values := [10] }

/-- A document that is exactly one `offsetVector` element. -/
def docOffsetOnly (t : String) : List XmlEvent := offsetEvents t

/-- A complete document holding a single `offsetVector`. -/
def docC4one : List XmlEvent :=
  stdDoc "2 1" "0.0 0.0" "1.0 1.0" "0.005 0.005" "1.0 2.0"

/-- Result of parsing `docC4one`: both cell sizes from the single vector. -/
def demC4one : DemData :=
  { metadata := { width := 2, height := 1, x_min := 0, y_max := 1,
                  cell_size_x := mkRat 5 1000, cell_size_y := mkRat 5 1000,
                  no_data_value := none, crs := none, mesh_code := none },
    elevation_values := [1, 2] }

/-- A document with two `offsetVector` elements: Scenario B's vectors
`0.001 0.0` and `0.0 -0.001`. -/
def docC4two : List XmlEvent :=
  envEvents "0 0" "2 1" ++ cornerEvents "0.0 0.0" "1.0 1.0" ++
    offsetEvents "0.001 0.0" ++ offsetEvents "0.0 -0.001" ++ tupleEvents "1 2"

/-- Result of parsing `docC4two`: both cell sizes come from the second
(last) vector, so `cell_size_x = 0`. -/
def demC4two : DemData :=
  { metadata := { width := 2, height := 1, x_min := 0, y_max := 1,
                  cell_size_x := 0, cell_size_y := mkRat 1 1000,
                  no_data_value := none, crs := none, mesh_code := none },
    elevation_values := [1, 2] }

/-- A document with no `offsetVector` element at all. -/
def docC4none : List XmlEvent :=
  envEvents "0 0" "2 1" ++ cornerEvents "0.0 0.0" "1.0 1.0" ++ tupleEvents "1 2"

/-- A document whose only `offsetVector` has a single component. -/
def docC4short : List XmlEvent :=
  envEvents "0 0" "2 1" ++ cornerEvents "0.0 0.0" "1.0 1.0" ++
    offsetEvents "5" ++ tupleEvents "1 2"

/-- A complete document with the given `low` text. -/
def docLow (t : String) : List XmlEvent :=
  envEvents t "1 1" ++ cornerEvents "135.0 35.0" "136.0 36.0" ++
    offsetEvents "0.5 0.5" ++ tupleEvents "7.5"

/-- Result of parsing `docLow t`, for every `t`. -/
def demC5 : DemData :=
  { metadata := { width := 1, height := 1, x_min := 135, y_max := 36,
                  cell_size_x := mkRat 5 10, cell_size_y := mkRat 5 10,
                  no_data_value := none, crs := none, mesh_code := none },
    elevation_values := [mkRat 75 10] }

/-- A document whose `offsetVector` first component is negative. -/
def docC6 : List XmlEvent :=
  stdDoc "2 1" "135.0 35.0" "136.0 36.0" "-0.005 0.005" "1.0 2.0"

/-- Result of parsing `docC6`: `cell_size_x` is stored negative. -/
def demC6 : DemData :=
  { metadata := { width := 2, height := 1, x_min := 135, y_max := 36,
                  cell_size_x := mkRat (-5) 1000, cell_size_y := mkRat 5 1000,
                  no_data_value := none, crs := none, mesh_code := none },
    elevation_values := [1, 2] }

/-- A valid document whose tuple list contains the non-numeric token `x2`. -/
def docC7bad : List XmlEvent :=
  stdDoc "2 1" "135.0 35.0" "136.0 36.0" "0.5 0.5" "1.0 x2"

/-- The scan state produced by `docC7bad`. -/
def stC7bad : ScanState :=
  { width := some 2, height := some 1, x_min := some 135, y_min := some 35,
    y_max := some 36, cell_size_x := some (mkRat 5 10),
    cell_size_y := some (mkRat 5 10), elevation_values_str := some "1.0 x2" }

/-- The metadata produced by `docC7bad`. -/
def mdC7bad : DemMetadata :=
  { width := 2, height := 1, x_min := 135, y_max := 36,
    cell_size_x := mkRat 5 10, cell_size_y := mkRat 5 10,
    no_data_value := none, crs := none, mesh_code := none }

/-- A document carrying `srsName` with value `v` on its `gml:Envelope`
element. -/
def docSrs (v : String) : List XmlEvent :=
  [.startE "gml:Envelope" [("srsName", v)], .endE "gml:Envelope"] ++
    stdDoc "1 1" "135.0 35.0" "136.0 36.0" "0.5 0.5" "8.0"

/-- Result of parsing `docSrs v`: the attribute value is stored verbatim. -/
def demSrs (v : String) : DemData :=
  { metadata := { width := 1, height := 1, x_min := 135, y_max := 36,
                  cell_size_x := mkRat 5 10, cell_size_y := mkRat 5 10,
                  no_data_value := none, crs := some v, mesh_code := none },
    elevation_values := [8] }

/-- The same document with no `srsName` attribute anywhere. -/
def docNoSrs : List XmlEvent :=
  stdDoc "1 1" "135.0 35.0" "136.0 36.0" "0.5 0.5" "8.0"

/-- Result of parsing `docNoSrs`: `crs` is `none` and the parse succeeds. -/
def demNoSrs : DemData :=
  { metadata := { width := 1, height := 1, x_min := 135, y_max := 36,
                  cell_size_x := mkRat 5 10, cell_size_y := mkRat 5 10,
                  no_data_value := none, crs := none, mesh_code := none },
    elevation_values := [8] }

/-- The lower-cased tag names recognized by the `Event::Start` dispatch. -/
def recognizedStarts : List String :=
  ["gml:gridenvelope", "jps:gridenvelope", "gml:low", "jps:low",
   "gml:high", "jps:high", "gml:envelope", "jps:envelope",
   "gml:lowercorner", "jps:lowercorner", "gml:uppercorner", "jps:uppercorner",
   "gml:offsetvector", "jps:offsetvector",
   "gml:nilvalues", "swe:nilvalues", "jps:nilvalues",
   "gml:tuplelist", "tuplelist", "jps:valuelist"]

/-- A document with `srsName = v1` on an element named `nmA` followed (in
document order) by `srsName = v2` on an element named `nmB`. -/
def docTwoSrs (nmA nmB v1 v2 : String) : List XmlEvent :=
  [.startE nmA [("srsName", v1)], .startE nmB [("srsName", v2)]] ++
    envEvents "0 0" "1 1" ++ cornerEvents "135.0 35.0" "136.0 36.0" ++
    offsetEvents "0.5 0.5" ++ tupleEvents "9.0"

/-- Result of parsing `docTwoSrs _ _ _ v`: the later attribute wins. -/
def demC10 (v : String) : DemData :=
  { metadata := { width := 1, height := 1, x_min := 135, y_max := 36,
                  cell_size_x := mkRat 5 10, cell_size_y := mkRat 5 10,
                  no_data_value := none, crs := some v, mesh_code := none },
    elevation_values := [9] }

/-- A document whose last `srsName` in document order sits on an element
nested inside the `offsetVector` element, i.e. inside the region consumed by
`get_text_from_event`. -/
def docSkipSrs : List XmlEvent :=
  [.startE "gml:Envelope" [("srsName", "EARLY")], .endE "gml:Envelope"] ++
    envEvents "0 0" "1 1" ++ cornerEvents "135.0 35.0" "136.0 36.0" ++
    [.startE "gml:offsetVector" [], .text "0.5 0.5",
     .startE "foo" [("srsName", "LATE")], .endE "foo",
     .endE "gml:offsetVector"] ++ tupleEvents "9.5"

/-- Result of parsing `docSkipSrs`: the nested `srsName` is never read. -/
def demSkip : DemData :=
  { metadata := { width := 1, height := 1, x_min := 135, y_max := 36,
                  cell_size_x := mkRat 5 10, cell_size_y := mkRat 5 10,
                  no_data_value := none, crs := some "EARLY", mesh_code := none },
    elevation_values := [mkRat 95 10] }

/-! ## Helper lemmas -/

theorem strEmptyAppend (s : String) : "" ++ s = s := rfl

/-! ## Claim C1 -/

/-- Counterexample to C1 as stated: at `high = "4294967296 4294967296"` with
tuple text `","`, the parse succeeds with width and height both 2^32 and an
empty elevation vector — the source's `usize` product `width * height` wraps
to 0 in a release build (a debug build panics on the multiplication instead
of raising the data-integrity error), so the successful result violates
`len = width * height` read as unbounded arithmetic. -/
theorem claim_C1_counterexample :
    parse_dem_xml docC1wrap = .ok demC1wrap ∧
    demC1wrap.metadata.width = 4294967296 ∧
    demC1wrap.metadata.height = 4294967296 ∧
    demC1wrap.elevation_values.length = 0 ∧
    demC1wrap.elevation_values.length ≠
      demC1wrap.metadata.width * demC1wrap.metadata.height := by
  decide

/-- Claim C1 as amended: in every successful `parse_dem_xml` result the
number of elevation values equals the `usize` product
`width * height % 2^64` — which is exactly `width * height` whenever that
product is below 2^64 — and whenever the decoded token count differs from
that wrapped product, the parse fails with the data-integrity error, whose
message contains both the (wrapped) expected count and the actual count. -/
theorem claim_C1 :
    (∀ evs d, parse_dem_xml evs = .ok d →
      d.elevation_values.length =
        d.metadata.width * d.metadata.height % usizeSize) ∧
    (∀ evs d, parse_dem_xml evs = .ok d →
      d.metadata.width * d.metadata.height < usizeSize →
      d.elevation_values.length = d.metadata.width * d.metadata.height) ∧
    (∀ evs st md s vals, scanEvents evs = .ok st → buildMetadata st = .ok md →
      st.elevation_values_str = some s → parseElevations s = .ok vals →
      vals.length ≠ md.width * md.height % usizeSize →
      parse_dem_xml evs = .error (integrityMsg md.width md.height vals.length) ∧
      occursIn (toString (md.width * md.height % usizeSize))
        (integrityMsg md.width md.height vals.length) ∧
      occursIn (toString vals.length)
        (integrityMsg md.width md.height vals.length)) := by
  have h1 : ∀ evs d, parse_dem_xml evs = .ok d →
      d.elevation_values.length =
        d.metadata.width * d.metadata.height % usizeSize := by
    intro evs d h
    unfold parse_dem_xml at h
    split at h
    · exact absurd h (by simp)
    · split at h
      · exact absurd h (by simp)
      · split at h
        · exact absurd h (by simp)
        · split at h
          · exact absurd h (by simp)
          · split at h
            · exact absurd h (by simp)
            · next hlen =>
              rw [Except.ok.injEq] at h
              subst h
              simpa using not_not.mp hlen
  refine ⟨h1, ?_, ?_⟩
  · intro evs d h hlt
    rw [h1 evs d h, Nat.mod_eq_of_lt hlt]
  · intro evs st md s vals hscan hmd hs hv hlen
    refine ⟨?_, ?_, ?_⟩
    · unfold parse_dem_xml
      rw [hscan]
      simp only [hmd, hs, hv]
      rw [if_pos hlen]
    · exact ⟨"Data Integrity Error: Mismatch between expected number of elevation values (",
        ", from width " ++ toString md.width ++ " x height " ++ toString md.height ++
          ") and parsed values (" ++ toString vals.length ++ ").",
        by simp [integrityMsg, String.append_assoc]⟩
    · exact ⟨"Data Integrity Error: Mismatch between expected number of elevation values (" ++
          toString (md.width * md.height % usizeSize) ++ ", from width " ++
          toString md.width ++ " x height " ++ toString md.height ++
          ") and parsed values (",
        ").",
        by simp [integrityMsg, String.append_assoc]⟩

/-- Witness for C1 at concrete documents: `docC1ok` (2 x 2, four values)
satisfies both the wrapped and the in-range length invariants, and `docC1mm`
(3 x 2, five values) produces the data-integrity error naming 6 and 5. -/
theorem claim_C1_witness :
    demC1ok.elevation_values.length =
      demC1ok.metadata.width * demC1ok.metadata.height % usizeSize ∧
    demC1ok.elevation_values.length =
      demC1ok.metadata.width * demC1ok.metadata.height ∧
    parse_dem_xml docC1mm = .error (integrityMsg 3 2 5) ∧
    occursIn (toString (3 * 2 % usizeSize)) (integrityMsg 3 2 5) ∧
    occursIn (toString 5) (integrityMsg 3 2 5) := by
  refine ⟨claim_C1.1 docC1ok demC1ok (by decide),
    claim_C1.2.1 docC1ok demC1ok (by decide) (by decide), ?_, ?_, ?_⟩
  · exact (claim_C1.2.2 docC1mm stC1mm mdC1mm "1 2 3 4 5" [1, 2, 3, 4, 5]
      (by decide) (by decide) rfl (by decide) (by decide)).1
  · exact (claim_C1.2.2 docC1mm stC1mm mdC1mm "1 2 3 4 5" [1, 2, 3, 4, 5]
      (by decide) (by decide) rfl (by decide) (by decide)).2.1
  · exact (claim_C1.2.2 docC1mm stC1mm mdC1mm "1 2 3 4 5" [1, 2, 3, 4, 5]
      (by decide) (by decide) rfl (by decide) (by decide)).2.2

/-! ## Claim C2 -/

/-- Counterexample to C2 as stated: a `high` of `2 1` yields width 2 and
height 1, not width 3 and height 2 (no `+ 1` is applied). -/
theorem claim_C2_counterexample :
    parse_dem_xml docC2 = .ok demC2 ∧ demC2.metadata.width = 2 ∧
    demC2.metadata.height = 1 ∧ demC2.metadata.width ≠ 2 + 1 ∧
    demC2.metadata.height ≠ 1 + 1 := by
  decide

/-- Claim C2 as amended: when the grid-envelope `high` element contains two
integers `c` and `r`, the scan records `width = c` and `height = r` directly
(the pair is taken as the exact grid dimensions, not an inclusive bound); a
`high` of `0 0` yields width 0 and height 0. -/
theorem claim_C2 :
    (∀ t s1 s2 n1 n2, splitWs t = [s1, s2] → parseNatStr s1 = some n1 →
      parseNatStr s2 = some n2 →
      scanWidth (docHigh t) = some n1 ∧ scanHeight (docHigh t) = some n2) ∧
    (scanWidth (docHigh "0 0") = some 0 ∧ scanHeight (docHigh "0 0") = some 0) := by
  constructor
  · intro t s1 s2 n1 n2 hs hp1 hp2
    simp [scanWidth, scanHeight, docHigh, envEvents, scanEvents, scanGo, startStep,
      endStep, textStep, finishCapture, finishHigh, updateCrs, strToLower, lowerChar,
      strEmptyAppend, hs, hp1, hp2]
  · exact ⟨by decide, by decide⟩

/-- Witness for C2 at `high = "7 4"`: width 7, height 4. -/
theorem claim_C2_witness :
    scanWidth (docHigh "7 4") = some 7 ∧ scanHeight (docHigh "7 4") = some 4 :=
  claim_C2.1 "7 4" "7" "4" 7 4 (by decide) (by decide) (by decide)

/-! ## Claim C3 -/

/-- Counterexample to C3 as stated: with both corner texts `36.0 139.0`, the
first number becomes `x_min` (not `y_max`) and the second becomes `y_max`
(not `x_min`): the tuples are read in (X, Y) order, so `x_min = 36 ≠ 139` and
`y_max = 139 ≠ 36`. -/
theorem claim_C3_counterexample :
    parse_dem_xml (docC3 "36.0 139.0" "36.0 139.0") = .ok (demC3 36 139) ∧
    (demC3 36 139).metadata.x_min = 36 ∧ (demC3 36 139).metadata.x_min ≠ 139 ∧
    (demC3 36 139).metadata.y_max = 139 ∧ (demC3 36 139).metadata.y_max ≠ 36 := by
  decide

/-- Claim C3 as amended: the corner position tuples are read in (X, Y) axis
order — `x_min` is the first number of the `lowerCorner` text and `y_max` is
the second number of the `upperCorner` text (`parse_dem_xml` has no origin
element; the `pos`-style Y-then-X order does not apply to it). -/
theorem claim_C3 :
    ∀ t1 t2 a b c d qa qd, splitWs t1 = [a, b] → parseNum a = some qa →
      splitWs t2 = [c, d] → parseNum d = some qd →
      parse_dem_xml (docC3 t1 t2) = .ok (demC3 qa qd) := by
  intro t1 t2 a b c d qa qd h1 hpa h2 hpd
  have e1 : splitWs "1 1" = ["1", "1"] := by decide
  have e2 : parseNatStr "1" = some 1 := by decide
  have e3 : splitWs "0.5 0.5" = ["0.5", "0.5"] := by decide
  have e4 : parseNum "0.5" = some (mkRat 5 10) := by decide
  have e4m : (parseNum "0.5").map (fun v => if v < 0 then -v else v) =
      some (mkRat 5 10) := by decide
  have e4i : (if mkRat 5 10 < 0 then -mkRat 5 10 else mkRat 5 10) =
      mkRat 5 10 := by decide
  have e5 : parseElevations "10.0" = .ok [10] := by decide
  simp [parse_dem_xml, docC3, stdDoc, envEvents, cornerEvents, offsetEvents,
    tupleEvents, scanEvents, scanGo, startStep, endStep, textStep, finishCapture,
    finishHigh, finishOffset, updateCrs, strToLower, lowerChar, strEmptyAppend,
    h1, hpa, h2, hpd, e1, e2, e3, e4, e4m, e4i, e5, buildMetadata, usizeSize, demC3]

/-- Witness for C3 at corners `140.0 40.0` / `140.1 40.1`: `x_min = 140`,
`y_max = 40.1`. -/
theorem claim_C3_witness :
    parse_dem_xml (docC3 "140.0 40.0" "140.1 40.1") = .ok (demC3 140 (mkRat 401 10)) :=
  claim_C3 "140.0 40.0" "140.1 40.1" "140.0" "40.0" "140.1" "40.1" 140 (mkRat 401 10)
    (by decide) (by decide) (by decide) (by decide)

/-! ## Claim C4 -/

/-- Counterexample to C4 as stated: a document with exactly one offset vector
parses successfully (no structural error), and with Scenario B's two vectors
`0.001 0.0` and `0.0 -0.001` the stored `cell_size_x` is `0.0` — index 0 of
the *second* vector — not `0.001` from the first vector. -/
theorem claim_C4_counterexample :
    parse_dem_xml docC4one = .ok demC4one ∧
    parse_dem_xml docC4two = .ok demC4two ∧
    demC4two.metadata.cell_size_x = 0 ∧
    demC4two.metadata.cell_size_x ≠ mkRat 1 1000 := by
  decide

/-- Claim C4 as amended: each offset-vector element with at least two
components overwrites both cell sizes — `cell_size_x` from its index 0 as-is
and `cell_size_y` from the absolute value of its index 1 — so the last such
vector wins; one vector suffices, a document with no offset vector fails with
the `cell_size_x` field error, and a vector with fewer than two components
assigns nothing (leaving the sizes missing if there is no other vector). -/
theorem claim_C4 :
    (∀ t p0 p1 r q0 q1, splitWs t = p0 :: p1 :: r → parseNum p0 = some q0 →
      parseNum p1 = some q1 →
      scanCellX (docOffsetOnly t) = some q0 ∧
      scanCellY (docOffsetOnly t) = some (if q1 < 0 then -q1 else q1)) ∧
    parse_dem_xml docC4two = .ok demC4two ∧
    parse_dem_xml docC4none = .error cellSizeXMissingMsg ∧
    parse_dem_xml docC4short = .error cellSizeXMissingMsg := by
  refine ⟨?_, by decide, by decide, by decide⟩
  intro t p0 p1 r q0 q1 hs hp0 hp1
  simp [scanCellX, scanCellY, docOffsetOnly, offsetEvents, scanEvents, scanGo,
    startStep, endStep, textStep, finishCapture, finishOffset, updateCrs,
    strToLower, lowerChar, strEmptyAppend, hs, hp0, hp1, Nat.le_add_left]

/-- Witness for C4 at the single vector `0.25 -0.5`: `cell_size_x = 0.25`
as-is, `cell_size_y = |-0.5| = 0.5`. -/
theorem claim_C4_witness :
    scanCellX (docOffsetOnly "0.25 -0.5") = some (mkRat 25 100) ∧
    scanCellY (docOffsetOnly "0.25 -0.5") =
      some (if mkRat (-5) 10 < 0 then -mkRat (-5) 10 else mkRat (-5) 10) :=
  claim_C4.1 "0.25 -0.5" "0.25" "-0.5" [] (mkRat 25 100) (mkRat (-5) 10)
    (by decide) (by decide) (by decide)

/-! ## Claim C5 -/

/-- Counterexample to C5 as stated: a `low` element holding `1 1` parses
successfully — no structural error is raised. -/
theorem claim_C5_counterexample :
    parse_dem_xml (docLow "1 1") = .ok demC5 := by
  decide

/-- A text event touches no field when none of the text-capturing flags is
set. -/
theorem textStep_inactive (st : ScanState) (s : String)
    (h1 : st.in_lower_corner = false) (h2 : st.in_upper_corner = false)
    (h3 : st.in_tuple_list = false) (h4 : st.in_jps_value_list = false)
    (h5 : st.in_nil_values = false) : textStep st s = st := by
  simp [textStep, h1, h2, h3, h4, h5]

/-- One scan step on a Start event in normal mode. -/
theorem scanGo_cons_start (st : ScanState) (hcap : st.capturing = none)
    (n : String) (a : List (String × String)) (rest : List XmlEvent) :
    scanGo st (.startE n a :: rest) = scanGo (startStep st n a) rest := by
  simp [scanGo, hcap]

/-- One scan step on a Text event in normal mode. -/
theorem scanGo_cons_text (st : ScanState) (hcap : st.capturing = none)
    (s : String) (rest : List XmlEvent) :
    scanGo st (.text s :: rest) = scanGo (textStep st s) rest := by
  simp [scanGo, hcap]

/-- Claim C5 as amended: the content of the `low` element is ignored
entirely — the parse result is the same successful value for every `low`
text, including `1 1`. -/
theorem claim_C5 :
    ∀ t, parse_dem_xml (docLow t) = .ok demC5 := by
  intro t
  have hsc : scanEvents (docLow t) = scanEvents (docLow "0 0") := by
    show scanGo {} (.startE "gml:GridEnvelope" [] :: .startE "gml:low" [] :: .text t :: _) =
      scanGo {} (.startE "gml:GridEnvelope" [] :: .startE "gml:low" [] :: .text "0 0" :: _)
    rw [scanGo_cons_start _ rfl, scanGo_cons_start _ (by decide),
        scanGo_cons_text _ (by decide),
        textStep_inactive _ _ (by decide) (by decide) (by decide) (by decide) (by decide)]
    rw [scanGo_cons_start _ rfl, scanGo_cons_start _ (by decide),
        scanGo_cons_text _ (by decide),
        textStep_inactive _ _ (by decide) (by decide) (by decide) (by decide) (by decide)]
  have hfin : parse_dem_xml (docLow "0 0") = .ok demC5 := by decide
  unfold parse_dem_xml at hfin ⊢
  rw [hsc]
  exact hfin

/-! ## Claim C6 -/

/-- Claim C6 (code bug): evaluating the parser at the failing input — an
offset vector `-0.005 0.005` — yields a successful result whose
`cell_size_x` is negative, contradicting the `DemMetadata` documentation
("This value is always positive"): `abs` is applied only to `cell_size_y`. -/
theorem claim_C6 :
    parse_dem_xml docC6 = .ok demC6 ∧
    demC6.metadata.cell_size_x = mkRat (-5) 1000 ∧
    demC6.metadata.cell_size_x < 0 := by
  decide

/-! ## Claim C7 -/

/-- A successful token decode is exactly the element-wise parse of the token
list. -/
theorem parseElevTokens_ok_map (l : List String) :
    ∀ vals, parseElevTokens l = .ok vals →
      l.map (fun t => parseNum (strTrim t)) = vals.map some := by
  induction l with
  | nil =>
    intro vals h
    simp only [parseElevTokens] at h
    cases h
    rfl
  | cons tok rest ih =>
    intro vals h
    simp only [parseElevTokens] at h
    cases hp : parseNum (strTrim tok) with
    | none => rw [hp] at h; simp at h
    | some v =>
      rw [hp] at h
      cases hr : parseElevTokens rest with
      | error e => rw [hr] at h; simp at h
      | ok vs =>
        rw [hr] at h
        cases h
        simp [hp, ih vs hr]

/-- If some token fails to parse, the decode fails with the error naming the
first failing token. -/
theorem parseElevTokens_err (l : List String) :
    ∀ t, t ∈ l → parseNum (strTrim t) = none →
      ∃ t0, t0 ∈ l ∧ parseNum (strTrim t0) = none ∧
        parseElevTokens l = .error (elevValueMsg t0) := by
  induction l with
  | nil => intro t ht _; simp at ht
  | cons tok rest ih =>
    intro t ht hn
    cases hp : parseNum (strTrim tok) with
    | none =>
      exact ⟨tok, List.mem_cons_self tok rest, hp, by simp [parseElevTokens, hp]⟩
    | some v =>
      rcases List.mem_cons.mp ht with rfl | hmem
      · rw [hp] at hn; exact absurd hn (by simp)
      · obtain ⟨t0, hm0, hn0, he⟩ := ih t hmem hn
        exact ⟨t0, List.mem_cons_of_mem _ hm0, hn0,
          by simp [parseElevTokens, hp, he]⟩

/-- Claim C7: the elevation decoder replaces commas with spaces, splits on
whitespace runs and parses every token independently (a successful decode is
the element-wise parse of that token list); if any token fails to parse, the
decode fails with an error that contains the offending token verbatim, and a
decoder error propagates as the result of the whole `parse_dem_xml` call, so
no partial elevation result is ever returned. -/
theorem claim_C7 :
    (∀ s vals, parseElevations s = .ok vals →
      (splitWs (replaceCommas s)).map (fun t => parseNum (strTrim t)) = vals.map some) ∧
    (∀ s t, t ∈ splitWs (replaceCommas s) → parseNum (strTrim t) = none →
      ∃ t0, t0 ∈ splitWs (replaceCommas s) ∧ parseNum (strTrim t0) = none ∧
        parseElevations s = .error (elevValueMsg t0) ∧
        occursIn t0 (elevValueMsg t0)) ∧
    (∀ evs st md s e, scanEvents evs = .ok st → buildMetadata st = .ok md →
      st.elevation_values_str = some s → parseElevations s = .error e →
      parse_dem_xml evs = .error e) := by
  refine ⟨?_, ?_, ?_⟩
  · intro s vals h
    exact parseElevTokens_ok_map _ vals h
  · intro s t ht hn
    obtain ⟨t0, hm0, hn0, he⟩ := parseElevTokens_err _ t ht hn
    exact ⟨t0, hm0, hn0, he,
      ⟨"XML Parse Error: Failed to parse elevation value ", ": invalid float literal",
        by simp [elevValueMsg, String.append_assoc]⟩⟩
  · intro evs st md s e hscan hmd hs hv
    unfold parse_dem_xml
    rw [hscan]
    simp only [hmd, hs, hv]

/-- Witness for C7: `1.0 2.5` decodes element-wise; `1.0 x2 3.0` fails with
an error naming a bad token; the whole parse of `docC7bad` returns the error
naming `x2`. -/
theorem claim_C7_witness :
    (splitWs (replaceCommas "1.0 2.5")).map (fun t => parseNum (strTrim t)) =
      [1, mkRat 25 10].map some ∧
    (∃ t0, t0 ∈ splitWs (replaceCommas "1.0 x2 3.0") ∧
      parseNum (strTrim t0) = none ∧
      parseElevations "1.0 x2 3.0" = .error (elevValueMsg t0) ∧
      occursIn t0 (elevValueMsg t0)) ∧
    parse_dem_xml docC7bad = .error (elevValueMsg "x2") := by
  refine ⟨?_, ?_, ?_⟩
  · exact claim_C7.1 "1.0 2.5" [1, mkRat 25 10] (by decide)
  · exact claim_C7.2.1 "1.0 x2 3.0" "x2" (by decide) (by decide)
  · exact claim_C7.2.2 docC7bad stC7bad mdC7bad "1.0 x2" (elevValueMsg "x2")
      (by decide) (by decide) rfl (by decide)

/-! ## Claim C8 -/

/-- Counterexample to C8 as stated: an `srsName` holding the URN
`urn:ogc:def:crs:EPSG::4326` is stored verbatim — the result is
`some "urn:ogc:def:crs:EPSG::4326"`, not `some "EPSG:4326"`: no re-encoding
takes place. -/
theorem claim_C8_counterexample :
    parse_dem_xml (docSrs "urn:ogc:def:crs:EPSG::4326") =
      .ok (demSrs "urn:ogc:def:crs:EPSG::4326") ∧
    (demSrs "urn:ogc:def:crs:EPSG::4326").metadata.crs =
      some "urn:ogc:def:crs:EPSG::4326" ∧
    (demSrs "urn:ogc:def:crs:EPSG::4326").metadata.crs ≠ some "EPSG:4326" := by
  decide

/-- Claim C8 as amended: the `srsName` attribute value is copied verbatim
into `crs` (a URN is stored as the full URN string, with no EPSG
re-encoding); when the attribute is absent the parse still succeeds with
`crs = none`. -/
theorem claim_C8 :
    (∀ v, parse_dem_xml (docSrs v) = .ok (demSrs v) ∧
      (demSrs v).metadata.crs = some v) ∧
    parse_dem_xml docNoSrs = .ok demNoSrs ∧ demNoSrs.metadata.crs = none := by
  exact ⟨fun v => ⟨rfl, rfl⟩, by decide, by decide⟩

/-! ## Claim C9 -/

/-- A list is a prefix of itself followed by anything. -/
theorem isPrefixOf_append_self (l r : List Char) : l.isPrefixOf (l ++ r) = true := by
  induction l with
  | nil => simp [List.isPrefixOf]
  | cons c cs ih => simp [List.isPrefixOf, ih]

/-- The EPSG prefix survives upper-casing and prefix testing. -/
theorem strStartsWith_epsg (s : String) :
    strStartsWith (strToUpper ("EPSG:" ++ s)) "EPSG:" = true := by
  show ("EPSG:".data.isPrefixOf (("EPSG:".data ++ s.data).map upperChar)) = true
  rw [List.map_append]
  rw [show "EPSG:".data.map upperChar = "EPSG:".data from by decide]
  exact isPrefixOf_append_self _ _

/-- Dropping the five EPSG-prefix bytes recovers the code string. -/
theorem strDrop_epsg (s : String) : strDrop ("EPSG:" ++ s) 5 = s := by
  show String.mk (("EPSG:".data ++ s.data).drop 5) = s
  rw [show (5 : Nat) = "EPSG:".data.length from rfl, List.drop_left]

/-- Claim C9 as amended: a `crs` of the form `EPSG:<code>` is classified by
the numeric-range heuristic for every code that parses as a 16-bit unsigned
integer — codes in the 4000–4999 band get the geographic key, all other
parsed codes the projected key — while a numeric code outside the `u16`
range (and any non-numeric tail) falls back to the citation key instead of
the projected key. -/
theorem claim_C9 :
    (∀ s n, parseU16 s = some n →
      classifyCrs (some ("EPSG:" ++ s)) =
        if 4000 ≤ n ∧ n < 5000 then CrsKey.geographic n else CrsKey.projected n) ∧
    (∀ s, parseU16 s = none →
      classifyCrs (some ("EPSG:" ++ s)) = CrsKey.citation ("EPSG:" ++ s)) := by
  constructor
  · intro s n hp
    simp [classifyCrs, strStartsWith_epsg s, strDrop_epsg s, hp]
  · intro s hp
    simp [classifyCrs, strStartsWith_epsg s, strDrop_epsg s, hp]

/-- Counterexample to C9 as stated: the numeric code 70000 does not fit in a
`u16`, so `EPSG:70000` is written as a citation key, not a projected key. -/
theorem claim_C9_counterexample :
    classifyCrs (some "EPSG:70000") = CrsKey.citation "EPSG:70000" ∧
    classifyCrs (some "EPSG:70000") ≠ CrsKey.projected 70000 := by
  decide

/-- Witness for C9: 4326 (geographic band), 32632 (projected), 70000
(citation fallback). -/
theorem claim_C9_witness :
    classifyCrs (some ("EPSG:" ++ "4326")) =
      (if 4000 ≤ 4326 ∧ 4326 < 5000 then CrsKey.geographic 4326
       else CrsKey.projected 4326) ∧
    classifyCrs (some ("EPSG:" ++ "32632")) =
      (if 4000 ≤ 32632 ∧ 32632 < 5000 then CrsKey.geographic 32632
       else CrsKey.projected 32632) ∧
    classifyCrs (some ("EPSG:" ++ "70000")) = CrsKey.citation ("EPSG:" ++ "70000") :=
  ⟨claim_C9.1 "4326" 4326 (by decide), claim_C9.1 "32632" 32632 (by decide),
    claim_C9.2 "70000" (by decide)⟩

/-! ## Claim C10 -/

/-- Counterexample to C10 as stated: in `docSkipSrs` the last `srsName` in
document order (`LATE`, on the `foo` element nested inside the
`offsetVector`) is skipped by the text-extraction loop, so the earlier value
wins: `crs = some "EARLY" ≠ some "LATE"`. -/
theorem claim_C10_counterexample :
    parse_dem_xml docSkipSrs = .ok demSkip ∧
    demSkip.metadata.crs = some "EARLY" ∧
    demSkip.metadata.crs ≠ some "LATE" := by
  decide

/-- An unrecognized start tag only runs the attribute scan. -/
theorem startStep_unrec (st : ScanState) (nm : String)
    (attrs : List (String × String)) (h : strToLower nm ∉ recognizedStarts) :
    startStep st nm attrs = { st with crs := updateCrs st.crs attrs } := by
  simp only [recognizedStarts, List.mem_cons, List.not_mem_nil, or_false,
    not_or] at h
  obtain ⟨h1, h2, h3, h4, h5, h6, h7, h8, h9, h10, h11, h12, h13, h14, h15,
    h16, h17, h18, h19, h20⟩ := h
  simp [startStep, h1, h2, h3, h4, h5, h6, h7, h8, h9, h10, h11, h12, h13,
    h14, h15, h16, h17, h18, h19, h20]

/-- Claim C10 as amended: `parse_dem_xml` copies the `srsName` attribute
value verbatim from start elements of any name processed by the main event
loop (not only spatial-reference or envelope elements), the last such
attribute wins, and an empty attribute value yields `some ""` rather than
`none`; however, start elements consumed while extracting the text of a
`high` or `offsetVector` element are skipped, so an `srsName` nested there
is ignored even if it is the last one in document order. -/
theorem claim_C10 :
    (∀ nmA nmB v1 v2, strToLower nmA ∉ recognizedStarts →
      strToLower nmB ∉ recognizedStarts →
      parse_dem_xml (docTwoSrs nmA nmB v1 v2) = .ok (demC10 v2) ∧
      (demC10 v2).metadata.crs = some v2) ∧
    ((demC10 "").metadata.crs = some "" ∧ some "" ≠ (none : Option String)) ∧
    (parse_dem_xml docSkipSrs = .ok demSkip ∧
      demSkip.metadata.crs = some "EARLY") := by
  refine ⟨?_, ⟨rfl, by decide⟩, ⟨by decide, rfl⟩⟩
  intro nmA nmB v1 v2 hA hB
  refine ⟨?_, rfl⟩
  have sA : ∀ (st : ScanState) attrs,
      startStep st nmA attrs = { st with crs := updateCrs st.crs attrs } :=
    fun st attrs => startStep_unrec st nmA attrs hA
  have sB : ∀ (st : ScanState) attrs,
      startStep st nmB attrs = { st with crs := updateCrs st.crs attrs } :=
    fun st attrs => startStep_unrec st nmB attrs hB
  have hscan : scanEvents (docTwoSrs nmA nmB v1 v2) =
      scanGo { crs := some v2 }
        (envEvents "0 0" "1 1" ++ cornerEvents "135.0 35.0" "136.0 36.0" ++
          offsetEvents "0.5 0.5" ++ tupleEvents "9.0") := by
    show scanGo {} (.startE nmA [("srsName", v1)] ::
      .startE nmB [("srsName", v2)] :: _) = _
    rw [scanGo_cons_start _ rfl, sA, scanGo_cons_start _ rfl, sB]
    rfl
  unfold parse_dem_xml
  rw [hscan]
  rfl

/-- Witness for C10 on the non-spatial elements `gml:DataBlock` and
`gml:rangeSet`: the second (later) value wins verbatim. -/
theorem claim_C10_witness :
    parse_dem_xml (docTwoSrs "gml:DataBlock" "gml:rangeSet" "JGD2000" "EPSG:6668") =
      .ok (demC10 "EPSG:6668") ∧
    (demC10 "EPSG:6668").metadata.crs = some "EPSG:6668" :=
  claim_C10.1 "gml:DataBlock" "gml:rangeSet" "JGD2000" "EPSG:6668"
    (by decide) (by decide)
